import Mathlib

/-!
Shallow embedding of the Daikin S21 protocol driver
(src/components/daikin_s21/s21.cpp): the byte-level framing state machine
`DaikinSerial` (handle_rx / service / send_frame), and the session-level
scheduler/decoder `DaikinS21` (tx_next / parse_ack / handle_nak / loop).

Bytes are modelled as `Nat` (the C++ type is `uint8_t`); 8-bit truncation
is written `% 256` where the source relies on it.  The UART receive buffer
is modelled as a `rx_buf : List Nat` field of the serial state; writes to
the tx UART are returned as explicit byte lists.  Logging calls are pure
observability and are not modelled; neither is the debug value cache
(`val_cache`), which the code only uses to produce log lines.
-/

-- ### Wire protocol constants (s21.cpp lines 10-14)

def STX : Nat := 2
def ETX : Nat := 3
def ENQ : Nat := 5
def ACK : Nat := 6
def NAK : Nat := 21

/-- Modelled from the spec: `S21_MAX_COMMAND_SIZE` is declared in the
header s21.h, which is not part of src/; the spec fixes the command field
at 1-2 printable ASCII bytes, so the maximum command size is 2. -/
def S21_MAX_COMMAND_SIZE : Nat := 2

/-- Modelled from the spec: `S21_PAYLOAD_SIZE` is declared in the header
s21.h, which is not part of src/; the spec fixes payloads at 4 bytes. -/
def S21_PAYLOAD_SIZE : Nat := 4

/-- Modelled from the spec: the numeric value of the response timeout is in
the header s21.h, which is not part of src/.  The spec gives no number;
the value is arbitrary and no claim depends on it. -/
def S21_RESPONSE_TIMEOUT : Nat := 250

/-- Modelled from the spec: the numeric value of the normal turnaround
cooldown is in the header s21.h, which is not part of src/.  The spec
gives no number; the value is arbitrary and no claim depends on it. -/
def S21_RESPONSE_TURNAROUND : Nat := 50

/-- Modelled from the spec: the numeric value of the error cooldown is in
the header s21.h, which is not part of src/.  The spec only says it is
longer than the turnaround cooldown; the value is otherwise arbitrary and
no claim depends on it. -/
def S21_ERROR_TIMEOUT : Nat := 3000

-- ### Link state and results (spec section 3; header modelled per spec)

inductive CommState where
  | Idle
  | QueryAck
  | CommandAck
  | QueryStx
  | QueryEtx
  | Cooldown
deriving DecidableEq, Repr

inductive Result where
  | Ack
  | Nak
  | Error
  | Busy
  | Timeout
  | Idle
deriving DecidableEq, Repr

/-- State owned by `DaikinSerial` (s21.cpp).  `rx_buf` models the bytes
buffered in the rx UART, which the C++ reads through
`rx_uart->available()` / `read_byte`. -/
structure DaikinSerial where
  comm_state : CommState
  response : List Nat
  rx_buf : List Nat
  cooldown_length : Nat
  last_event_time : Nat
deriving DecidableEq, Repr

/-- `millis() - last_event_time` on uint32 values (wraparound subtraction). -/
def elapsed (last now : Nat) : Nat :=
  (now % 2 ^ 32 + 2 ^ 32 - last % 2 ^ 32) % 2 ^ 32

/-- `DaikinSerial::handle_rx` (s21.cpp lines 150-232).  The write of the
ACK echo byte to the tx UART on successful checksum validation is an
external side effect and is not modelled.  In the `QueryEtx` terminal
branch the C++ reads `response[response.size()-1]` — undefined when the
response is empty — modelled with default 0. -/
def handle_rx (s : DaikinSerial) (byte : Nat) : DaikinSerial × Result :=
  match s.comm_state with
  | CommState.QueryAck | CommState.CommandAck =>
    if byte = ACK then
      if s.comm_state = CommState.QueryAck then
        ({ s with comm_state := CommState.QueryStx }, Result.Busy)
      else
        ({ s with comm_state := CommState.Cooldown,
                  cooldown_length := S21_RESPONSE_TURNAROUND }, Result.Ack)
    else if byte = NAK then
      ({ s with comm_state := CommState.Cooldown,
                cooldown_length := S21_RESPONSE_TURNAROUND }, Result.Nak)
    else
      ({ s with comm_state := CommState.Cooldown,
                cooldown_length := S21_ERROR_TIMEOUT }, Result.Error)
  | CommState.QueryStx =>
    if byte = STX then
      ({ s with comm_state := CommState.QueryEtx }, Result.Busy)
    else if byte = ACK then
      (s, Result.Busy)
    else
      ({ s with comm_state := CommState.Cooldown,
                cooldown_length := S21_ERROR_TIMEOUT }, Result.Error)
  | CommState.QueryEtx =>
    if byte ≠ ETX then
      let resp := s.response ++ [byte]
      if resp.length > S21_MAX_COMMAND_SIZE + S21_PAYLOAD_SIZE + 1 then
        ({ s with response := resp, comm_state := CommState.Cooldown,
                  cooldown_length := S21_ERROR_TIMEOUT }, Result.Error)
      else
        ({ s with response := resp }, Result.Busy)
    else
      let checksum := s.response.getLast?.getD 0
      let resp := s.response.dropLast
      let calc_checksum := resp.sum % 256
      if calc_checksum = checksum ∨ (calc_checksum = STX ∧ checksum = ENQ) then
        ({ s with response := resp, comm_state := CommState.Cooldown,
                  cooldown_length := S21_RESPONSE_TURNAROUND }, Result.Ack)
      else
        ({ s with response := resp, comm_state := CommState.Cooldown,
                  cooldown_length := S21_ERROR_TIMEOUT }, Result.Error)
  | _ => (s, Result.Busy)

/-- The byte-draining while loop of `DaikinSerial::service` (s21.cpp lines
256-261): consume buffered bytes one at a time through `handle_rx` until a
terminal result is produced or input is exhausted; `last_event_time` is
refreshed for each byte read. -/
def drain_go : DaikinSerial → Nat → List Nat → DaikinSerial × Result
  | s, _, [] => ({ s with rx_buf := [] }, Result.Busy)
  | s, now, b :: rest =>
    let p := handle_rx { s with last_event_time := now } b
    if p.2 = Result.Busy then drain_go p.1 now rest
    else ({ p.1 with rx_buf := rest }, p.2)

/-- `DaikinSerial::service` (s21.cpp lines 234-266). -/
def service (s : DaikinSerial) (now : Nat) : DaikinSerial × Result :=
  match s.comm_state with
  | CommState.Idle => (s, Result.Idle)
  | CommState.Cooldown =>
    if elapsed s.last_event_time now > s.cooldown_length then
      ({ s with comm_state := CommState.Idle }, Result.Idle)
    else
      (s, Result.Busy)
  | _ =>
    if elapsed s.last_event_time now > S21_RESPONSE_TIMEOUT then
      ({ s with comm_state := CommState.Idle }, Result.Timeout)
    else
      drain_go s now s.rx_buf

/-- Result of `DaikinSerial::send_frame`: new serial state, the bytes
written to the tx UART, and the returned result. -/
structure SendOutcome where
  serial : DaikinSerial
  tx : List Nat
  result : Result
deriving DecidableEq, Repr

/-- The transmitted checksum byte for a command+payload body: 8-bit
truncated sum, with the `STX → ENQ` escape (s21.cpp lines 296-303). -/
def frame_checksum (cmd payload : List Nat) : Nat :=
  let c := (cmd.sum + payload.sum) % 256
  if c = STX then ENQ else c

/-- `DaikinSerial::send_frame` (s21.cpp lines 268-312).  `flush_input`
(lines 314-319) empties the rx UART buffer, modelled by `rx_buf := []`.
The checksum is computed in the source in two `std::accumulate` stages
(command into a uint8_t, then payload on top of it), written here with the
same staging. -/
def send_frame (s : DaikinSerial) (cmd : List Nat) (payload : Option (List Nat))
    (now : Nat) : SendOutcome :=
  if s.comm_state ≠ CommState.Idle then
    ⟨s, [], Result.Busy⟩
  else if cmd.length > S21_MAX_COMMAND_SIZE then
    ⟨s, [], Result.Error⟩
  else
    let c1 := cmd.sum % 256
    let c2 := match payload with
      | some p => (c1 + p.sum) % 256
      | none => c1
    let cks := if c2 = STX then ENQ else c2
    ⟨{ s with response := [], rx_buf := [], last_event_time := now,
              comm_state := if payload.isSome then CommState.CommandAck
                            else CommState.QueryAck },
      STX :: cmd ++ payload.getD [] ++ [cks, ETX],
      Result.Ack⟩

-- ### Numeric codec helpers (s21.cpp lines 58-75)

/-- `bytes_to_num` (s21.cpp lines 58-67): three ASCII decimal digits with
place values 1/10/100 (byte0 = ones, byte1 = tens, byte2 = hundreds),
negated when a fourth byte is present and equals `'-'`.  The uint8_t bytes
promote to int in the C++ arithmetic, so the value is exact (|val| ≤
207*111, far below the int16_t range); bytes are read with default 0
where the C++ would read past the caller's buffer. -/
def bytes_to_num (bytes : List Nat) (len : Nat) : Int :=
  let val : Int := ((bytes.getD 0 0 : Int) - 48)
    + ((bytes.getD 1 0 : Int) - 48) * 10
    + ((bytes.getD 2 0 : Int) - 48) * 100
  if len > 3 ∧ bytes.getD 3 0 = 45 then -val else val

/-- `temp_bytes_to_c10` (s21.cpp line 69). -/
def temp_bytes_to_c10 (bytes : List Nat) : Int := bytes_to_num bytes 4

/-- `temp_f9_byte_to_c10` (s21.cpp line 71): `(*bytes / 2 - 64) * 10` on a
uint8_t promoted to int. -/
def temp_f9_byte_to_c10 (b : Nat) : Int := (((b / 2 : Nat) : Int) - 64) * 10

/-- C++ `/` on int operands truncates toward zero (`Int.tdiv`). -/
def cpp_div (a b : Int) : Int := Int.tdiv a b

/-- `c10_to_setpoint_byte` (s21.cpp lines 73-75): `(setpoint + 3) / 5 + 28`
on int16_t, converted to uint8_t on return. -/
def c10_to_setpoint_byte (setpoint : Int) : Nat :=
  ((cpp_div (setpoint + 3) 5 + 28) % 256).toNat

/-- C++ `round` / `lroundf`: round half away from zero, modelled on exact
rationals (floating-point representation error is not modelled). -/
def cpp_round (q : ℚ) : Int :=
  if q < 0 then -(Int.floor (-q + 1 / 2)) else Int.floor (q + 1 / 2)

/-- int16_t narrowing conversion (two's complement wraparound). -/
def to_int16 (v : Int) : Int := (v + 2 ^ 15) % 2 ^ 16 - 2 ^ 15

-- ### Session data model (spec section 3; header modelled per spec)

/-- Modelled from the spec: the `DaikinClimateMode` enum lives in the
header s21.h, which is not part of src/.  `parse_ack` stores the raw
response byte via `static_cast`, so the mode field is modelled as the
underlying byte; the spec's end-to-end scenario identifies byte `'A'`
with the `Auto` enumerator. -/
def DaikinClimateMode_Auto : Nat := 65

/-- `DaikinClimateState` (header modelled per spec section 3): power, mode
byte, setpoint, fan byte, and the two swing axes.  The setpoint is a
rational: the `active` instance holds exact tenths-of-degree integers and
the `pending` instance holds the caller-requested degrees-Celsius value
(a float in the C++). -/
structure ClimateState where
  power_on : Bool
  mode : Nat
  setpoint : ℚ
  fan : Nat
  swing_v : Bool
  swing_h : Bool
deriving DecidableEq, Repr

/-- Session state of `DaikinS21` (header modelled per spec section 3).
The query pool is an ordered list of command codes (byte lists) and the
scan cursor is the numeric index of `current_query` (`queries.length`
models the past-the-end iterator).  The readiness bitset is modelled as
three booleans.  The debug flag and diff cache are logging-only and not
modelled. -/
structure DaikinS21 where
  serial : DaikinSerial
  queries : List (List Nat)
  current_query : Nat
  tx_command : List Nat
  activate_climate : Bool
  activate_swing_mode : Bool
  refresh_state : Bool
  pending : ClimateState
  active : ClimateState
  support_RG : Bool
  support_RH : Bool
  support_Ra : Bool
  temp_inside : Int
  temp_outside : Int
  temp_coil : Int
  fan_rpm : Int
  compressor_hz : Int
  swing_vertical_angle : Int
  ready_basic : Bool
  ready_swing : Bool
  ready_compressor : Bool
deriving DecidableEq, Repr

-- ### Session operations (s21.cpp lines 321-590)

/-- `DaikinS21::refine_queries` (s21.cpp lines 321-332): drop the first
`"F9"` entry once both higher-resolution individual sensors are
supported. -/
def refine_queries (s : DaikinS21) : DaikinS21 :=
  if s.support_Ra ∧ s.support_RH then
    { s with queries := s.queries.erase [70, 57] }
  else s

/-- The climate command payload built in `DaikinS21::tx_next` (s21.cpp
lines 338-344): `lroundf(round(setpoint * 2) / 2 * 10.0)` narrowed to the
int16_t parameter of `c10_to_setpoint_byte`. -/
def climate_payload (pending : ClimateState) : List Nat :=
  [if pending.power_on then 49 else 48,
   pending.mode,
   c10_to_setpoint_byte
     (to_int16 (cpp_round ((cpp_round (pending.setpoint * 2) : ℚ) / 2 * 10))),
   pending.fan]

/-- The swing command payload built in `DaikinS21::tx_next` (s21.cpp
lines 348-356). -/
def swing_payload (pending : ClimateState) : List Nat :=
  [48 + (if pending.swing_h ∧ pending.swing_v then 4 else 0)
      + (if pending.swing_h then 2 else 0)
      + (if pending.swing_v then 1 else 0),
   if pending.swing_v ∨ pending.swing_h then 63 else 48,
   48,
   48]

/-- `DaikinS21::tx_next` (s21.cpp lines 334-377).  Returns the updated
session and the bytes written to the tx UART. -/
def tx_next (s : DaikinS21) (now : Nat) : DaikinS21 × List Nat :=
  if s.activate_climate then
    let o := send_frame s.serial [68, 49] (some (climate_payload s.pending)) now
    ({ s with tx_command := [68, 49], serial := o.serial }, o.tx)
  else if s.activate_swing_mode then
    let o := send_frame s.serial [68, 53] (some (swing_payload s.pending)) now
    ({ s with tx_command := [68, 53], serial := o.serial }, o.tx)
  else if s.current_query < s.queries.length then
    let q := s.queries.getD s.current_query []
    let o := send_frame s.serial q none now
    ({ s with tx_command := q, serial := o.serial }, o.tx)
  else if s.refresh_state then
    let s1 := refine_queries { s with refresh_state := false }
    let q := s1.queries.getD 0 []
    let o := send_frame s1.serial q none now
    ({ s1 with current_query := 0, tx_command := q, serial := o.serial }, o.tx)
  else
    (s, [])

/-- The `case 'G'` inner switch of `DaikinS21::parse_ack` (s21.cpp lines
399-424), on the second response-code byte. -/
def dispatch_G (s : DaikinS21) (r1 : Nat) (payload : List Nat) : DaikinS21 :=
  if r1 = 49 then -- G1: basic state
    let a0 := { s.active with
      power_on := payload.getD 0 0 == 49,
      mode := payload.getD 1 0,
      setpoint := (((payload.getD 2 0 : Int) - 28) * 5 : Int) }
    let a1 := if s.support_RG = false then { a0 with fan := payload.getD 3 0 }
              else a0
    { s with active := a1, ready_basic := true }
  else if r1 = 53 then -- G5: swing state
    let a0 := { s.active with
      swing_v := (payload.getD 0 0 &&& 1) != 0,
      swing_h := (payload.getD 0 0 &&& 2) != 0 }
    { s with active := a0, ready_swing := true }
  else if r1 = 56 then s -- G8: protocol version, ignored
  else if r1 = 57 then -- G9: combined low-resolution temperatures
    { s with temp_inside := temp_f9_byte_to_c10 (payload.getD 0 0),
             temp_outside := temp_f9_byte_to_c10 (payload.getD 1 0) }
  else s

/-- The `case 'S'` inner switch of `DaikinS21::parse_ack` (s21.cpp lines
426-472).  SF / SM / SX / Sz and unknown codes only produce debug
logging. -/
def dispatch_S (s : DaikinS21) (r1 : Nat) (payload : List Nat)
    (payload_len : Nat) : DaikinS21 :=
  if r1 = 66 then s -- SB: same info as G1
  else if r1 = 71 then -- SG: fan mode, better detail than G1
    { s with active := { s.active with fan := payload.getD 0 0 },
             support_RG := true }
  else if r1 = 72 then -- SH: inside temperature
    { s with temp_inside := temp_bytes_to_c10 payload, support_RH := true }
  else if r1 = 73 then -- SI: coil temperature
    { s with temp_coil := temp_bytes_to_c10 payload }
  else if r1 = 97 then -- Sa: outside temperature
    { s with temp_outside := temp_bytes_to_c10 payload, support_Ra := true }
  else if r1 = 76 then -- SL: fan rpm
    { s with fan_rpm := bytes_to_num payload payload_len * 10 }
  else if r1 = 100 then -- Sd: compressor frequency
    { s with compressor_hz := bytes_to_num payload payload_len,
             ready_compressor := true }
  else if r1 = 67 then -- SC: setpoint
    { s with active := { s.active with
        setpoint := (bytes_to_num payload payload_len : Int) } }
  else if r1 = 78 then -- SN: swing vertical angle
    { s with swing_vertical_angle := bytes_to_num payload 4 }
  else s

/-- The `case 'D'` inner switch of `DaikinS21::parse_ack` (s21.cpp lines
477-489): the synthesized code for bare command acknowledgments. -/
def dispatch_D (s : DaikinS21) (r1 : Nat) : DaikinS21 :=
  if r1 = 49 then
    { s with activate_climate := false, refresh_state := true }
  else if r1 = 53 then
    { s with activate_swing_mode := false, refresh_state := true }
  else
    { s with refresh_state := true }

/-- The response dispatch switch of `DaikinS21::parse_ack` (s21.cpp lines
398-493), acting on the zero-padded response code (`rcode.getD _ 0`
models the zero-initialised `rcode` buffer), the payload bytes, and the
payload length.  Unknown codes only produce debug logging (lines
495-518), which is not modelled. -/
def dispatch (s : DaikinS21) (rcode payload : List Nat) (payload_len : Nat) :
    DaikinS21 :=
  let r0 := rcode.getD 0 0
  let r1 := rcode.getD 1 0
  if r0 = 71 then dispatch_G s r1 payload -- 'G'  (F -> G)
  else if r0 = 83 then dispatch_S s r1 payload payload_len -- 'S'  (R -> S)
  else if r0 = 77 then s -- 'M'
  else if r0 = 68 then dispatch_D s r1 -- 'D' (fake response)
  else s

/-- `DaikinS21::parse_ack` (s21.cpp lines 379-519).  An empty response
buffer is a bare command acknowledgment: the transmitted command is
copied into the response code and the cursor does not move; otherwise the
buffer splits into response code and payload and the scan cursor
advances. -/
def parse_ack (s : DaikinS21) : DaikinS21 :=
  let rcode_len := s.tx_command.length
  if s.serial.response.isEmpty then
    dispatch s s.tx_command [] 0
  else
    let rcode := s.serial.response.take rcode_len
    let payload := s.serial.response.drop rcode_len
    let payload_len := s.serial.response.length - rcode_len
    dispatch { s with current_query := s.current_query + 1 } rcode payload
      payload_len

/-- `DaikinS21::handle_nak` (s21.cpp lines 521-533).  The C++ dereferences
`*current_query` unconditionally for the `strcmp`; when the cursor is the
past-the-end iterator that read is undefined behaviour, modelled by
`none`. -/
def handle_nak (s : DaikinS21) : Option DaikinS21 :=
  match s.queries[s.current_query]? with
  | none => none
  | some q =>
    if s.tx_command = q then
      some { s with queries := s.queries.eraseIdx s.current_query }
    else
      some (parse_ack s)

/-- The query pool populated by `DaikinS21::setup` (s21.cpp lines
535-557): F1 F5 F9 Rd RH RI Ra RL RG, as byte lists. -/
def setup_queries : List (List Nat) :=
  [[70, 49], [70, 53], [70, 57],
   [82, 100], [82, 72], [82, 73], [82, 97], [82, 76], [82, 71]]

/-- A freshly constructed serial link (value-initialised state, Idle). -/
def initSerial : DaikinSerial :=
  { comm_state := CommState.Idle, response := [], rx_buf := [],
    cooldown_length := 0, last_event_time := 0 }

/-- Zero climate state. -/
def initClimate : ClimateState :=
  { power_on := false, mode := 0, setpoint := 0, fan := 0,
    swing_v := false, swing_h := false }

/-- Session state right after `DaikinS21::setup`: default-initialised
fields, the populated query pool, cursor at its start. -/
def initS21 : DaikinS21 :=
  { serial := initSerial, queries := setup_queries, current_query := 0,
    tx_command := [], activate_climate := false, activate_swing_mode := false,
    refresh_state := false, pending := initClimate, active := initClimate,
    support_RG := false, support_RH := false, support_Ra := false,
    temp_inside := 0, temp_outside := 0, temp_coil := 0, fan_rpm := 0,
    compressor_hz := 0, swing_vertical_angle := 0, ready_basic := false,
    ready_swing := false, ready_compressor := false }

/-- `DaikinS21::loop` (s21.cpp lines 559-590): service the transport and
react to its result.  The `Nak` arm goes through `handle_nak`, whose
undefined-behaviour case propagates as `none`. -/
def loop (s : DaikinS21) (now : Nat) : Option (DaikinS21 × List Nat) :=
  let p := service s.serial now
  let s1 := { s with serial := p.1 }
  match p.2 with
  | Result.Ack => some (parse_ack s1, [])
  | Result.Idle => some (tx_next s1 now)
  | Result.Nak => Option.map (fun x => (x, ([] : List Nat))) (handle_nak s1)
  | Result.Error =>
    some ({ s1 with
        current_query := s1.queries.length, refresh_state := true,
        activate_climate := false, activate_swing_mode := false }, [])
  | Result.Timeout => some (s1, [])
  | Result.Busy => some (s1, [])

-- ### Concrete states used by the verification scenarios

/-- Receiver side right after a query was sent: awaiting the peer ACK. -/
def rxSerial (t : Nat) : DaikinSerial :=
  { comm_state := CommState.QueryAck, response := [], rx_buf := [],
    cooldown_length := 0, last_event_time := t }

/-- Receiver mid-frame with an accumulated response buffer. -/
def etxSerial (resp : List Nat) : DaikinSerial :=
  { comm_state := CommState.QueryEtx, response := resp, rx_buf := [],
    cooldown_length := 0, last_event_time := 0 }

/-- A link awaiting an ACK whose rx buffer holds a protocol-violating
byte (0): servicing it yields `Error`. -/
def errSerial : DaikinSerial :=
  { comm_state := CommState.QueryAck, response := [], rx_buf := [0],
    cooldown_length := 0, last_event_time := 0 }

/-- A link awaiting an ACK with no buffered input: servicing it long
after `last_event_time` yields `Timeout`. -/
def timeoutSerial : DaikinSerial :=
  { comm_state := CommState.QueryAck, response := [], rx_buf := [],
    cooldown_length := 0, last_event_time := 0 }

def errS21 : DaikinS21 := { initS21 with serial := errSerial }

def timeoutS21 : DaikinS21 := { initS21 with serial := timeoutSerial }

/-- The serial state `service errS21.serial 0` produces. -/
def errSerialAfter : DaikinSerial :=
  { comm_state := CommState.Cooldown, response := [], rx_buf := [],
    cooldown_length := S21_ERROR_TIMEOUT, last_event_time := 0 }

/-- The serial state `service timeoutS21.serial 100000` produces. -/
def timeoutSerialAfter : DaikinSerial :=
  { comm_state := CommState.Idle, response := [], rx_buf := [],
    cooldown_length := 0, last_event_time := 0 }

/-- Session with a pending climate activation while the scan is complete
(cursor at the past-the-end position). -/
def c10S21 : DaikinS21 :=
  { initS21 with activate_climate := true,
                 current_query := initS21.queries.length }

/-- Session with a pending climate activation and a scan in progress. -/
def c5S21 : DaikinS21 := { initS21 with activate_climate := true }

/-- Session about to receive a NAK for the query at the cursor. -/
def c4S21 : DaikinS21 := { initS21 with tx_command := [70, 49] }

/-- The session right after `tx_next` transmitted the F1 query. -/
def c8query : DaikinS21 := (tx_next initS21 0).1

/-- The spec scenario's receive bytes with the response code the device
actually produces (`G1`, the F → G reply mapping): ACK, STX, 'G', '1',
'1', 'A', '0', '3', checksum 77, ETX. -/
def c8bytesG : List Nat := [ACK, STX, 71, 49, 49, 65, 48, 51, 77, ETX]

/-- The spec scenario's receive bytes exactly as written in the claim
(response code `'F','1'`): ACK, STX, 'F', '1', '1', 'A', '0', '3',
checksum 76, ETX. -/
def c8bytesF : List Nat := [ACK, STX, 70, 49, 49, 65, 48, 51, 76, ETX]

def c8resultG : DaikinS21 :=
  parse_ack { c8query with serial := (drain_go c8query.serial 0 c8bytesG).1 }

def c8resultF : DaikinS21 :=
  parse_ack { c8query with serial := (drain_go c8query.serial 0 c8bytesF).1 }

/-- The number encoding described by the claim: byte0/1/2 are the ASCII
ones/tens/hundreds digits of |n| and byte3 is `'-'` for negative n
(`'+'` otherwise). -/
def spec_num_encoding (n : Int) : List Nat :=
  [48 + n.natAbs % 10, 48 + n.natAbs / 10 % 10, 48 + n.natAbs / 100 % 10,
   if n < 0 then 45 else 43]

/-- Session that has already seen an RG response (support_RG set), about
to parse a G1 basic-state response. -/
def c9RGseen : DaikinS21 :=
  { initS21 with
    support_RG := true, tx_command := [70, 49],
    serial := { initSerial with response := [71, 49, 49, 65, 48, 51] } }

/-- Session that has not seen an RG response, about to parse the same G1
basic-state response. -/
def c9RGunseen : DaikinS21 :=
  { initS21 with
    support_RG := false, tx_command := [70, 49],
    serial := { initSerial with response := [71, 49, 49, 65, 48, 51] } }

-- ### Theorems

/-- A natural below 1000 is recomposed from its three decimal digits. -/
theorem three_digit_recompose (m : Nat) (hm : m < 1000) :
    m % 10 + m / 10 % 10 * 10 + m / 100 % 10 * 100 = m := by
  have h1 : m / 10 / 10 = m / 100 := by rw [Nat.div_div_eq_div_mul]
  omega

/-- C7: for every integer n in [-999, 999], `bytes_to_num` decodes the
3-digit-plus-sign encoding of n back to exactly n. -/
theorem bytes_to_num_decodes_encoding (n : Int) (h1 : -999 ≤ n) (h2 : n ≤ 999) :
    bytes_to_num (spec_num_encoding n) 4 = n := by
  have hk := three_digit_recompose n.natAbs (by omega)
  have hk2 : ((n.natAbs % 10 : Nat) : Int)
      + ((n.natAbs / 10 % 10 : Nat) : Int) * 10
      + ((n.natAbs / 100 % 10 : Nat) : Int) * 100 = (n.natAbs : Int) := by
    exact_mod_cast hk
  simp only [bytes_to_num, spec_num_encoding, List.getD_cons_zero,
    List.getD_cons_succ, Nat.cast_add, Nat.cast_ofNat]
  by_cases hn : n < 0
  · have habs : (n.natAbs : Int) = -n := by omega
    simp only [hn, ite_true]
    rw [if_pos (by norm_num)]
    linarith [hk2]
  · have habs : (n.natAbs : Int) = n := by omega
    simp only [hn, ite_false]
    rw [if_neg (by norm_num)]
    linarith [hk2]

/-- Witness for C7 at n = -123 and n = 907. -/
theorem bytes_to_num_decodes_encoding_witness :
    bytes_to_num (spec_num_encoding (-123)) 4 = -123 ∧
    bytes_to_num (spec_num_encoding 907) 4 = 907 :=
  ⟨bytes_to_num_decodes_encoding (-123) (by decide) (by decide),
   bytes_to_num_decodes_encoding 907 (by decide) (by decide)⟩

/-- C3: `send_frame` returns Busy and changes nothing unless the link is
Idle; returns Error (changing nothing) for an oversized command; and
otherwise clears the response buffer, drains stale input, emits
STX·command·payload?·checksum·ETX, records the time, moves to CommandAck
(payload) or QueryAck (no payload), and returns Ack. -/
theorem send_frame_spec (s : DaikinSerial) (cmd : List Nat)
    (payload : Option (List Nat)) (now : Nat) :
    (s.comm_state ≠ CommState.Idle →
      send_frame s cmd payload now = ⟨s, [], Result.Busy⟩) ∧
    (s.comm_state = CommState.Idle → cmd.length > S21_MAX_COMMAND_SIZE →
      send_frame s cmd payload now = ⟨s, [], Result.Error⟩) ∧
    (s.comm_state = CommState.Idle → cmd.length ≤ S21_MAX_COMMAND_SIZE →
      send_frame s cmd payload now =
        ⟨{ s with
             response := [], rx_buf := [], last_event_time := now,
             comm_state := if payload.isSome then CommState.CommandAck
                           else CommState.QueryAck },
          STX :: cmd ++ payload.getD [] ++
            [frame_checksum cmd (payload.getD []), ETX],
          Result.Ack⟩) := by
  refine ⟨fun h => ?_, fun h1 h2 => ?_, fun h1 h2 => ?_⟩
  · simp [send_frame, h]
  · simp [send_frame, h1, h2]
  · cases payload with
    | none => simp [send_frame, h1, Nat.not_lt.mpr h2, frame_checksum]
    | some p =>
      simp [send_frame, h1, Nat.not_lt.mpr h2, frame_checksum, Nat.mod_add_mod]

/-- Witness for C3: a busy link refuses, an oversize command errors, and
a query is framed and transmitted. -/
theorem send_frame_spec_witness :
    send_frame (rxSerial 0) [70, 49] none 5 = ⟨rxSerial 0, [], Result.Busy⟩ ∧
    send_frame initSerial [70, 49, 50] none 5 = ⟨initSerial, [], Result.Error⟩ ∧
    send_frame initSerial [70, 49] none 5 =
      ⟨{ initSerial with
           response := [], rx_buf := [], last_event_time := 5,
           comm_state := CommState.QueryAck },
        [STX, 70, 49, 119, ETX], Result.Ack⟩ := by
  refine ⟨(send_frame_spec (rxSerial 0) [70, 49] none 5).1 (by decide),
          (send_frame_spec initSerial [70, 49, 50] none 5).2.1 rfl (by decide),
          ?_⟩
  have h := (send_frame_spec initSerial [70, 49] none 5).2.2 rfl (by decide)
  simpa [frame_checksum] using h

/-- C2 counterexample: the claim's "accepts a frame whose trailing
checksum byte is ENQ exactly when the recomputed sum equals STX" fails:
with accumulated body [2, 3] (8-bit sum 5 = ENQ) and trailing checksum
byte ENQ, the validator accepts although the recomputed sum is not STX
(the ordinary equality branch matches). -/
theorem checksum_enq_accept_not_only_stx :
    (handle_rx (etxSerial [2, 3, ENQ]) ETX).2 = Result.Ack ∧
    ¬ (([2, 3] : List Nat).sum % 256 = STX) := by decide

/-- C2 amended: if the 8-bit sum of the command+payload bytes equals STX,
`send_frame` transmits ENQ as the checksum byte; the receive validator
accepts a frame whose trailing checksum byte is ENQ exactly when the
8-bit sum it recomputes over the body equals STX or equals ENQ. -/
theorem checksum_escape_law (cmd payload body : List Nat) (t : Nat)
    (hsum : (cmd.sum + payload.sum) % 256 = STX)
    (hlen : cmd.length ≤ S21_MAX_COMMAND_SIZE) :
    (send_frame initSerial cmd (some payload) t).tx
      = STX :: cmd ++ payload ++ [ENQ, ETX] ∧
    ((handle_rx (etxSerial (body ++ [ENQ])) ETX).2 = Result.Ack ↔
      body.sum % 256 = STX ∨ body.sum % 256 = ENQ) := by
  constructor
  · have h := (send_frame_spec initSerial cmd (some payload) t).2.2 rfl hlen
    rw [h]
    simp [frame_checksum, hsum]
  · simp only [handle_rx, etxSerial]
    rw [if_neg (by simp)]
    rw [List.getLast?_concat, List.dropLast_concat]
    simp only [Option.getD_some]
    constructor
    · intro h
      split at h
      · rename_i hcond
        rcases hcond with h1 | h1
        · exact Or.inr h1
        · exact Or.inl h1.1
      · exact absurd h (by simp)
    · intro h
      have hcond : body.sum % 256 = ENQ ∨ (body.sum % 256 = STX ∧ True) := by
        rcases h with h1 | h1
        · exact Or.inr ⟨h1, trivial⟩
        · exact Or.inl h1
      rw [if_pos hcond]

/-- Witness for C2's amended theorem: command "F1" with payload summing so
that the total 8-bit sum is STX, and a concrete body [2, 3]. -/
theorem checksum_escape_law_witness :
    (send_frame initSerial [70, 49] (some [48, 48, 43, 0]) 0).tx
      = STX :: [70, 49] ++ [48, 48, 43, 0] ++ [ENQ, ETX] ∧
    ((handle_rx (etxSerial ([2, 3] ++ [ENQ])) ETX).2 = Result.Ack ↔
      ([2, 3] : List Nat).sum % 256 = STX ∨ ([2, 3] : List Nat).sum % 256 = ENQ) :=
  checksum_escape_law [70, 49] [48, 48, 43, 0] [2, 3] 0 (by decide) (by decide)

/-- C6: when `service` reports Error on a tick, `loop` moves the scan
cursor to end-of-pool, clears both pending-activation flags, and sets the
refresh-request flag, touching no other session state; when it reports
Timeout, no session state beyond the serial state changes at all. -/
theorem loop_error_timeout_effect (s : DaikinS21) (now : Nat)
    (ser : DaikinSerial) :
    (service s.serial now = (ser, Result.Error) →
      loop s now = some ({ s with
        serial := ser, current_query := s.queries.length,
        refresh_state := true, activate_climate := false,
        activate_swing_mode := false }, [])) ∧
    (service s.serial now = (ser, Result.Timeout) →
      loop s now = some ({ s with serial := ser }, [])) := by
  constructor <;> intro h <;> simp [loop, h]

/-- Witness for C6: a link hit by a protocol-violating byte (Error) and a
link that went silent (Timeout). -/
theorem loop_error_timeout_effect_witness :
    loop errS21 0 = some ({ errS21 with
      serial := errSerialAfter, current_query := errS21.queries.length,
      refresh_state := true, activate_climate := false,
      activate_swing_mode := false }, []) ∧
    loop timeoutS21 100000 = some ({ timeoutS21 with
      serial := timeoutSerialAfter }, []) :=
  ⟨(loop_error_timeout_effect errS21 0 errSerialAfter).1 (by decide),
   (loop_error_timeout_effect timeoutS21 100000 timeoutSerialAfter).2 (by decide)⟩

/-- C10: `handle_nak` dereferences the pool entry at the scan cursor
before branching, so its total embedding is `none` exactly when the
cursor sits at end-of-pool; and that situation is reachable for a NAK to
a command frame: with the scan complete and a climate activation pending,
`tx_next` transmits the D1 command without touching the cursor, the
transport turns the peer's NAK byte into a Nak result, and `handle_nak`
on the resulting session state hits the end-of-pool dereference. -/
theorem handle_nak_cursor_dereference :
    (∀ s : DaikinS21, handle_nak s = none ↔
        s.queries.length ≤ s.current_query) ∧
    ((tx_next c10S21 0).1.tx_command = [68, 49] ∧
     (handle_rx (tx_next c10S21 0).1.serial NAK).2 = Result.Nak ∧
     handle_nak { (tx_next c10S21 0).1 with
       serial := (handle_rx (tx_next c10S21 0).1.serial NAK).1 } = none) := by
  constructor
  · intro s
    unfold handle_nak
    cases h : s.queries[s.current_query]? with
    | none =>
      simp only [List.getElem?_eq_none_iff] at h
      simpa using h
    | some q =>
      have hlt : s.current_query < s.queries.length := by
        by_contra hge
        rw [List.getElem?_eq_none (by omega)] at h
        exact Option.noConfusion h
      simp only [h]
      constructor
      · intro hc
        split at hc <;> simp at hc
      · intro hle
        exact absurd hlt (Nat.not_lt.mpr hle)
  · refine ⟨rfl, by decide, ?_⟩
    decide

/-- C8 counterexample: running the spec's end-to-end scenario with the
receive bytes exactly as the claim lists them — response code 'F','1' —
the frame passes the checksum and is acknowledged, but `parse_ack`
dispatches on response codes (G..., S..., D...), not on 'F', so the
active state is left untouched: power stays off, mode and fan stay 0,
contradicting the claimed power_on = true. -/
theorem f1_scenario_literal_bytes :
    c8query.tx_command = [70, 49] ∧
    (drain_go c8query.serial 0 c8bytesF).2 = Result.Ack ∧
    c8resultF.active.power_on = false ∧
    c8resultF.active.mode = 0 ∧
    c8resultF.active.fan = 0 := by decide

/-- C8 amended: after transmitting query "F1" and feeding the receive
state machine ACK, STX, 'G','1','1','A','0','3', the matching checksum
byte, ETX (the device answers an F query with response code G), and
dispatching through `parse_ack`, the decoded active state has
power_on = true, mode equal to the byte 'A' (the Auto enumerator), and
fan taken from byte '3'. -/
theorem f1_scenario_g_response :
    c8query.tx_command = [70, 49] ∧
    (drain_go c8query.serial 0 c8bytesG).2 = Result.Ack ∧
    c8resultG.active.power_on = true ∧
    c8resultG.active.mode = 65 ∧
    c8resultG.active.mode = DaikinClimateMode_Auto ∧
    c8resultG.active.fan = 51 := by decide

/-- Erasing the entry at index i makes index i denote the entry that
previously followed it (or the end of the list when it was last). -/
theorem eraseIdx_getElem_shift {α : Type} :
    ∀ (l : List α) (i : Nat), (l.eraseIdx i)[i]? = l[i + 1]?
  | [], _ => by simp
  | _ :: _, 0 => by simp [List.eraseIdx]
  | a :: t, i + 1 => by
    simp only [List.eraseIdx, List.getElem?_cons_succ]
    exact eraseIdx_getElem_shift t i

/-- In a duplicate-free list, the element at index i no longer occurs
anywhere after erasing index i. -/
theorem eraseIdx_not_mem_of_nodup {α : Type} :
    ∀ (l : List α) (i : Nat) (a : α), l.Nodup → l[i]? = some a →
      a ∉ l.eraseIdx i
  | [], i, a, _, h => by simp at h
  | x :: t, 0, a, hnd, h => by
    simp only [List.getElem?_cons_zero, Option.some_inj] at h
    subst h
    simpa [List.eraseIdx] using (List.nodup_cons.mp hnd).1
  | x :: t, i + 1, a, hnd, h => by
    simp only [List.getElem?_cons_succ] at h
    have hmem : a ∈ t := List.getElem?_mem h
    have hne : a ≠ x := by
      intro he
      subst he
      exact (List.nodup_cons.mp hnd).1 hmem
    have hrec := eraseIdx_not_mem_of_nodup t i a (List.nodup_cons.mp hnd).2 h
    simp only [List.eraseIdx, List.mem_cons]
    rintro (he | he)
    · exact hne he
    · exact hrec he

/-- C4: with a duplicate-free query pool and the scan cursor on a live
entry whose code was the NAK'd command, `handle_nak` removes that exact
code from the pool (it is absent afterwards), shrinks the pool by exactly
one, and leaves the cursor index unchanged so that it now denotes the
entry that followed the removed one (or end-of-pool). -/
theorem nak_prunes_query (s : DaikinS21)
    (hnd : s.queries.Nodup)
    (hq : s.queries[s.current_query]? = some s.tx_command) :
    ∃ s2, handle_nak s = some s2 ∧
      s.tx_command ∉ s2.queries ∧
      s2.queries.length + 1 = s.queries.length ∧
      s2.current_query = s.current_query ∧
      s2.queries[s2.current_query]? = s.queries[s.current_query + 1]? := by
  have hlt : s.current_query < s.queries.length := by
    by_contra hge
    rw [List.getElem?_eq_none (by omega)] at hq
    exact Option.noConfusion hq
  refine ⟨{ s with queries := s.queries.eraseIdx s.current_query },
    ?_, ?_, ?_, rfl, ?_⟩
  · simp [handle_nak, hq]
  · exact eraseIdx_not_mem_of_nodup s.queries s.current_query s.tx_command
      hnd hq
  · show (s.queries.eraseIdx s.current_query).length + 1 = s.queries.length
    have := List.length_eraseIdx_of_lt hlt
    omega
  · exact eraseIdx_getElem_shift s.queries s.current_query

/-- Witness for C4: the fresh pool with the cursor on "F1" and a NAK for
"F1": the pool shrinks to 8 entries and the cursor lands on "F5". -/
theorem nak_prunes_query_witness :
    ∃ s2, handle_nak c4S21 = some s2 ∧
      c4S21.tx_command ∉ s2.queries ∧
      s2.queries.length + 1 = c4S21.queries.length ∧
      s2.current_query = c4S21.current_query ∧
      s2.queries[s2.current_query]? = c4S21.queries[c4S21.current_query + 1]? :=
  nak_prunes_query c4S21 (by decide) (by decide)

/-- C5: with a climate activation pending and a query scan in progress,
`tx_next` on an Idle link transmits the climate command frame (code D1,
with payload), not the cursor's query, and does not move the cursor; and
when that command is acknowledged (ACK byte, empty response buffer),
`parse_ack` leaves the cursor exactly where it was, so the scan resumes
from its prior position. -/
theorem climate_priority (s : DaikinS21) (now : Nat)
    (hact : s.activate_climate = true)
    (hidle : s.serial.comm_state = CommState.Idle)
    (hscan : s.current_query < s.queries.length) :
    (tx_next s now).1.tx_command = [68, 49] ∧
    (tx_next s now).2 =
      STX :: [68, 49] ++ climate_payload s.pending ++
        [frame_checksum [68, 49] (climate_payload s.pending), ETX] ∧
    (tx_next s now).1.current_query = s.current_query ∧
    (handle_rx (tx_next s now).1.serial ACK).2 = Result.Ack ∧
    (parse_ack { (tx_next s now).1 with
        serial := (handle_rx (tx_next s now).1.serial ACK).1 }).current_query
      = s.current_query := by
  have hsf := (send_frame_spec s.serial [68, 49]
    (some (climate_payload s.pending)) now).2.2 hidle (by decide)
  simp [tx_next, hact, hsf, handle_rx, parse_ack, dispatch, dispatch_D,
    List.getD]

/-- Witness for C5 on the fresh session with a pending climate change. -/
theorem climate_priority_witness :
    (tx_next c5S21 0).1.tx_command = [68, 49] ∧
    (tx_next c5S21 0).2 =
      STX :: [68, 49] ++ climate_payload c5S21.pending ++
        [frame_checksum [68, 49] (climate_payload c5S21.pending), ETX] ∧
    (tx_next c5S21 0).1.current_query = c5S21.current_query ∧
    (handle_rx (tx_next c5S21 0).1.serial ACK).2 = Result.Ack ∧
    (parse_ack { (tx_next c5S21 0).1 with
        serial := (handle_rx (tx_next c5S21 0).1.serial ACK).1 }).current_query
      = c5S21.current_query :=
  climate_priority c5S21 0 (by decide) (by decide) (by decide)

/-- `parse_ack` on a non-empty response buffer: split into response code
and payload, advance the scan cursor, dispatch. -/
theorem parse_ack_split (s : DaikinS21)
    (hne : s.serial.response.isEmpty = false) :
    parse_ack s = dispatch { s with current_query := s.current_query + 1 }
      (s.serial.response.take s.tx_command.length)
      (s.serial.response.drop s.tx_command.length)
      (s.serial.response.length - s.tx_command.length) := by
  rw [parse_ack]
  simp [hne]

/-- The G-switch never touches the RG capability flag. -/
theorem dispatch_G_support_RG_mono (s : DaikinS21) (r1 : Nat)
    (pay : List Nat) (h : s.support_RG = true) :
    (dispatch_G s r1 pay).support_RG = true := by
  unfold dispatch_G
  split_ifs <;> exact h

/-- The S-switch only ever sets the RG capability flag. -/
theorem dispatch_S_support_RG_mono (s : DaikinS21) (r1 : Nat)
    (pay : List Nat) (plen : Nat) (h : s.support_RG = true) :
    (dispatch_S s r1 pay plen).support_RG = true := by
  unfold dispatch_S
  split_ifs <;> first | rfl | exact h

/-- The D-switch never touches the RG capability flag. -/
theorem dispatch_D_support_RG_mono (s : DaikinS21) (r1 : Nat)
    (h : s.support_RG = true) : (dispatch_D s r1).support_RG = true := by
  unfold dispatch_D
  split_ifs <;> exact h

/-- `dispatch` never clears the RG capability flag. -/
theorem dispatch_support_RG_mono (s : DaikinS21) (rcode pay : List Nat)
    (plen : Nat) (h : s.support_RG = true) :
    (dispatch s rcode pay plen).support_RG = true := by
  simp only [dispatch]
  split_ifs
  · exact dispatch_G_support_RG_mono _ _ _ h
  · exact dispatch_S_support_RG_mono _ _ _ _ h
  · exact h
  · exact dispatch_D_support_RG_mono _ _ h
  · exact h

/-- `dispatch` on a basic-state (G1) response code: the RG flag is
preserved and the fan field is overwritten from the fourth payload byte
only when RG support has not been observed. -/
theorem dispatch_g1_fan (s : DaikinS21) (pay : List Nat) (plen : Nat) :
    (dispatch s [71, 49] pay plen).active.fan =
      (if s.support_RG = false then pay.getD 3 0 else s.active.fan) := by
  simp only [dispatch, dispatch_G, List.getD_cons_zero, List.getD_cons_succ]
  norm_num
  by_cases h : s.support_RG = false <;> simp [h]

/-- C9: `support_RG` never drops back to false under `parse_ack`; while
it is set, parsing a basic-state (G1) response leaves `active.fan`
untouched; while it is not yet set, parsing a G1 response stores the
fourth payload byte into `active.fan`. -/
theorem g1_fan_gated_by_support_RG (s : DaikinS21) :
    (s.support_RG = true → (parse_ack s).support_RG = true) ∧
    (s.support_RG = true → s.tx_command.length = 2 →
      s.serial.response.take 2 = [71, 49] →
      (parse_ack s).active.fan = s.active.fan) ∧
    (s.support_RG = false → s.tx_command.length = 2 →
      s.serial.response.take 2 = [71, 49] →
      (parse_ack s).active.fan = (s.serial.response.drop 2).getD 3 0) := by
  have hne_of_take : s.serial.response.take 2 = [71, 49] →
      s.serial.response.isEmpty = false := by
    intro htake
    rcases hr : s.serial.response with _ | _
    · rw [hr] at htake
      simp at htake
    · simp
  refine ⟨fun h => ?_, fun h hlen htake => ?_, fun h hlen htake => ?_⟩
  · by_cases hr : s.serial.response.isEmpty = true
    · rw [parse_ack]
      rw [if_pos hr]
      exact dispatch_support_RG_mono _ _ _ _ h
    · rw [parse_ack_split s (by simpa using hr)]
      exact dispatch_support_RG_mono _ _ _ _ (by simpa using h)
  · rw [parse_ack_split s (hne_of_take htake), hlen, htake, dispatch_g1_fan]
    simp [h]
  · rw [parse_ack_split s (hne_of_take htake), hlen, htake, dispatch_g1_fan]
    simp [h]

/-- Witness for C9: parsing the G1 response '1','A','0','3' with RG seen
leaves fan untouched; with RG unseen it stores byte '3'. -/
theorem g1_fan_gated_by_support_RG_witness :
    (parse_ack c9RGseen).support_RG = true ∧
    (parse_ack c9RGseen).active.fan = c9RGseen.active.fan ∧
    (parse_ack c9RGunseen).active.fan
      = (c9RGunseen.serial.response.drop 2).getD 3 0 :=
  ⟨(g1_fan_gated_by_support_RG c9RGseen).1 (by decide),
   (g1_fan_gated_by_support_RG c9RGseen).2.1 (by decide) (by decide) (by decide),
   (g1_fan_gated_by_support_RG c9RGunseen).2.2 (by decide) (by decide)
     (by decide)⟩

/-- Feeding a run of non-ETX bytes to a receiver in the accumulating
state appends them to the response buffer (no terminal result), as long
as the overflow bound is respected. -/
theorem drain_go_accum (now : Nat) :
    ∀ (bs : List Nat) (s : DaikinSerial) (rest : List Nat),
      s.comm_state = CommState.QueryEtx →
      s.last_event_time = now →
      (∀ b ∈ bs, b ≠ ETX) →
      s.response.length + bs.length
        ≤ S21_MAX_COMMAND_SIZE + S21_PAYLOAD_SIZE + 1 →
      drain_go s now (bs ++ rest)
        = drain_go { s with response := s.response ++ bs } now rest
  | [], s, rest, _, _, _, _ => by
    cases s
    simp
  | b :: bs, s, rest, hcs, ht, hno, hlen => by
    have hs1 : { s with last_event_time := now } = s := by
      rw [← ht]
    have hb : b ≠ ETX := hno b (List.mem_cons_self _ _)
    have hover : ¬ (s.response ++ [b]).length
        > S21_MAX_COMMAND_SIZE + S21_PAYLOAD_SIZE + 1 := by
      simp only [List.length_append, List.length_cons, List.length_nil]
      simp only [List.length_cons] at hlen
      omega
    have hstep : handle_rx s b
        = ({ s with response := s.response ++ [b] }, Result.Busy) := by
      simp only [handle_rx, hcs]
      rw [if_pos hb, if_neg hover]
    have hrec := drain_go_accum now bs { s with response := s.response ++ [b] }
      rest (by simpa using hcs) (by simpa using ht)
      (fun x hx => hno x (List.mem_cons_of_mem _ hx))
      (by
        simp only [List.length_append, List.length_cons, List.length_nil]
        simp only [List.length_cons] at hlen
        omega)
    calc drain_go s now ((b :: bs) ++ rest)
        = drain_go { s with response := s.response ++ [b] } now (bs ++ rest) := by
          rw [List.cons_append]
          simp only [drain_go, hs1, hstep, ite_true]
      _ = drain_go { s with response := s.response ++ (b :: bs) } now rest := by
          rw [hrec]
          congr 1
          cases s
          simp

/-- C1 amended: a frame emitted by `send_frame` for any command of length
at most the maximum and any 4-byte payload, none of whose bytes equals
ETX and whose checksum byte is not ETX, is reconstructed exactly
(command ++ payload in the response buffer, checksum validated, result
Ack) when the emitted bytes are fed one at a time through the receive
state machine after the leading ACK handshake. -/
theorem send_recv_round_trip (cmd payload : List Nat) (t1 t2 : Nat)
    (hc : cmd.length ≤ S21_MAX_COMMAND_SIZE)
    (hp : payload.length = S21_PAYLOAD_SIZE)
    (hnoetx : ∀ b ∈ cmd ++ payload, b ≠ ETX)
    (hcks : frame_checksum cmd payload ≠ ETX) :
    (send_frame initSerial cmd (some payload) t1).result = Result.Ack ∧
    (drain_go (rxSerial t2) t2
        (ACK :: (send_frame initSerial cmd (some payload) t1).tx)).2
      = Result.Ack ∧
    (drain_go (rxSerial t2) t2
        (ACK :: (send_frame initSerial cmd (some payload) t1).tx)).1.response
      = cmd ++ payload := by
  have hsf := (send_frame_spec initSerial cmd (some payload) t1).2.2 rfl hc
  have hres : (send_frame initSerial cmd (some payload) t1).result
      = Result.Ack := by rw [hsf]
  have htx : (send_frame initSerial cmd (some payload) t1).tx
      = STX :: (((cmd ++ payload) ++ [frame_checksum cmd payload]) ++ [ETX]) := by
    rw [hsf]
    simp
  have hno2 : ∀ b ∈ (cmd ++ payload) ++ [frame_checksum cmd payload],
      b ≠ ETX := by
    intro b hb
    rcases List.mem_append.mp hb with h1 | h1
    · exact hnoetx b h1
    · rw [List.mem_singleton.mp h1]
      exact hcks
  have hm2 : S21_MAX_COMMAND_SIZE = 2 := rfl
  have hp4 : S21_PAYLOAD_SIZE = 4 := rfl
  have hacc := drain_go_accum t2 ((cmd ++ payload) ++ [frame_checksum cmd payload])
    {
      comm_state := CommState.QueryEtx, response := [], rx_buf := [],
      cooldown_length := 0, last_event_time := t2 } [ETX] rfl rfl hno2
    (by
      simp only [List.length_append, List.length_cons, List.length_nil]
      omega)
  have hcond : (cmd ++ payload).sum % 256 = frame_checksum cmd payload ∨
      ((cmd ++ payload).sum % 256 = STX ∧ frame_checksum cmd payload = ENQ) := by
    unfold frame_checksum
    simp only [List.sum_append]
    by_cases hS : (cmd.sum + payload.sum) % 256 = STX
    · rw [if_pos hS]
      exact Or.inr ⟨hS, rfl⟩
    · rw [if_neg hS]
      exact Or.inl rfl
  have hrx : handle_rx {
      comm_state := CommState.QueryEtx,
      response := (cmd ++ payload) ++ [frame_checksum cmd payload],
      rx_buf := [], cooldown_length := 0, last_event_time := t2 } ETX
      = ({
      comm_state := CommState.Cooldown, response := cmd ++ payload,
           rx_buf := [], cooldown_length := S21_RESPONSE_TURNAROUND,
           last_event_time := t2 }, Result.Ack) := by
    simp only [handle_rx]
    rw [if_neg (by simp)]
    rw [List.getLast?_concat, List.dropLast_concat]
    simp only [Option.getD_some]
    rw [if_pos hcond]
  have hfin : drain_go {
      comm_state := CommState.QueryEtx,
      response := (cmd ++ payload) ++ [frame_checksum cmd payload],
      rx_buf := [], cooldown_length := 0, last_event_time := t2 } t2 [ETX]
      = ({
      comm_state := CommState.Cooldown, response := cmd ++ payload,
           rx_buf := [], cooldown_length := S21_RESPONSE_TURNAROUND,
           last_event_time := t2 }, Result.Ack) := by
    simp only [drain_go, hrx, ite_true]
    rfl
  have hall : drain_go (rxSerial t2) t2
      (ACK :: (send_frame initSerial cmd (some payload) t1).tx)
      = ({
      comm_state := CommState.Cooldown, response := cmd ++ payload,
           rx_buf := [], cooldown_length := S21_RESPONSE_TURNAROUND,
           last_event_time := t2 }, Result.Ack) := by
    rw [htx]
    have hstep2 : drain_go (rxSerial t2) t2
        (ACK :: STX :: (((cmd ++ payload) ++ [frame_checksum cmd payload])
          ++ [ETX]))
        = drain_go {
      comm_state := CommState.QueryEtx, response := [],
            rx_buf := [], cooldown_length := 0, last_event_time := t2 } t2
            (((cmd ++ payload) ++ [frame_checksum cmd payload]) ++ [ETX]) := rfl
    rw [hstep2, hacc]
    show drain_go {
      comm_state := CommState.QueryEtx,
      response := (cmd ++ payload) ++ [frame_checksum cmd payload],
      rx_buf := [], cooldown_length := 0, last_event_time := t2 } t2 [ETX] = _
    exact hfin
  exact ⟨hres, by rw [hall], by rw [hall]⟩

/-- C1 counterexample: for command "F1" with payload [ETX, '0', '0', '0']
(a perfectly legal 4-byte payload under the claim's quantification),
`send_frame` emits the frame, but feeding the emitted bytes through the
receive state machine ends with Error — the in-body ETX byte terminates
the frame early and the checksum comparison fails — so the claimed
universal round-trip is false. -/
theorem round_trip_fails_on_etx_in_payload :
    (send_frame initSerial [70, 49] (some [3, 48, 48, 48]) 0).result
      = Result.Ack ∧
    (drain_go (rxSerial 0) 0
        (ACK :: (send_frame initSerial [70, 49] (some [3, 48, 48, 48]) 0).tx)).2
      = Result.Error := by decide

/-- Witness for C1's amended theorem: the round trip for command "F1"
with payload "0000". -/
theorem send_recv_round_trip_witness :
    (send_frame initSerial [70, 49] (some [48, 48, 48, 48]) 5).result
      = Result.Ack ∧
    (drain_go (rxSerial 7) 7
        (ACK :: (send_frame initSerial [70, 49] (some [48, 48, 48, 48]) 5).tx)).2
      = Result.Ack ∧
    (drain_go (rxSerial 7) 7
        (ACK :: (send_frame initSerial [70, 49] (some [48, 48, 48, 48]) 5).tx)).1.response
      = [70, 49] ++ [48, 48, 48, 48] :=
  send_recv_round_trip [70, 49] [48, 48, 48, 48] 5 7 (by decide) (by decide)
    (by decide) (by decide)
